import Mathlib

/-!
Shallow embedding of the okex-rest client (src/unnamed/part_000) and proofs
about its parameter canonicalization, request signing, request building and
response normalization.

Modelling conventions:
* JavaScript strings are Lean `String`s; the default `Array.prototype.sort()`
  comparison on the parameter keys (lexicographic by code unit, which for the
  code-point range used by this client coincides with code-point order) is
  embedded as the executable comparator `strLe`.
* JavaScript request-parameter values are either strings or `undefined`
  (numeric arguments are pre-rendered to their decimal strings); they are
  embedded as `JVal`.  Parameter mappings are association lists with the
  object's insertion order, `List (String × JVal)`.
* Parsed JSON response data is embedded as `JsValue` (integer numerals).
* The `md5` library function is embedded as the actual MD5 algorithm over the
  UTF-8 bytes of its input, rendering the digest in lowercase hexadecimal,
  exactly as the library does.  Machine words are `Nat`s reduced mod 2^32.
-/

/-- A JavaScript request-parameter value: a string, or `undefined`. -/
inductive JVal where
  | s (v : String)
  | undefined
  deriving DecidableEq, Repr

/-- JavaScript string coercion of a parameter value, as performed by the
`+` concatenation in `formatParameters` (`'' + undefined` is `"undefined"`). -/
def JVal.toStr : JVal → String
  | .s v => v
  | .undefined => "undefined"

/-- An optional JS argument: `none` models `undefined` (argument not
supplied), `some v` a supplied string value. -/
def JVal.ofOpt : Option String → JVal
  | some v => .s v
  | none => .undefined

/-- JavaScript truthiness of a string-or-undefined argument, as used by the
`if (x)` guards of the endpoint methods (`undefined` and `''` are falsy). -/
def truthyOpt : Option String → Bool
  | some v => v ≠ ""
  | none => false

/-- Lexicographic comparison of char lists by code point; embeds the default
`Array.prototype.sort()` string comparison used on parameter keys. -/
def charListLe : List Char → List Char → Bool
  | [], _ => true
  | _ :: _, [] => false
  | x :: xs, y :: ys =>
    if x < y then true
    else if y < x then false
    else charListLe xs ys

/-- String comparison used to sort parameter keys. -/
def strLe (a b : String) : Bool := charListLe a.data b.data

/-- Embedding of `formatParameters` (src/unnamed/part_000:75-91): sort the
keys of the mapping, then concatenate `key=value` pairs joined by `&`.
`params[sortedKeys[i]]` is the object property access, embedded as `lookup`
(which always succeeds since the keys come from the mapping itself). -/
def formatParameters (params : List (String × JVal)) : String :=
  String.intercalate "&"
    ((List.insertionSort (fun a b => strLe a b = true) (params.map Prod.fst)).map
      (fun k => k ++ "=" ++ ((params.lookup k).getD JVal.undefined).toStr))

/-! ### MD5 (model of the `md5` npm library used by `signMessage`) -/

/-- Bitwise complement on 32-bit words represented as `Nat`s below `2^32`. -/
def not32 (x : Nat) : Nat := x ^^^ 0xFFFFFFFF

/-- 32-bit left rotation. -/
def rotl32 (x c : Nat) : Nat := ((x <<< c) ||| (x >>> (32 - c))) % 4294967296

/-- The 64 MD5 sine-derived constants. -/
def md5K : List Nat :=
  [0xd76aa478, 0xe8c7b756, 0x242070db, 0xc1bdceee,
   0xf57c0faf, 0x4787c62a, 0xa8304613, 0xfd469501,
   0x698098d8, 0x8b44f7af, 0xffff5bb1, 0x895cd7be,
   0x6b901122, 0xfd987193, 0xa679438e, 0x49b40821,
   0xf61e2562, 0xc040b340, 0x265e5a51, 0xe9b6c7aa,
   0xd62f105d, 0x02441453, 0xd8a1e681, 0xe7d3fbc8,
   0x21e1cde6, 0xc33707d6, 0xf4d50d87, 0x455a14ed,
   0xa9e3e905, 0xfcefa3f8, 0x676f02d9, 0x8d2a4c8a,
   0xfffa3942, 0x8771f681, 0x6d9d6122, 0xfde5380c,
   0xa4beea44, 0x4bdecfa9, 0xf6bb4b60, 0xbebfbc70,
   0x289b7ec6, 0xeaa127fa, 0xd4ef3085, 0x04881d05,
   0xd9d4d039, 0xe6db99e5, 0x1fa27cf8, 0xc4ac5665,
   0xf4292244, 0x432aff97, 0xab9423a7, 0xfc93a039,
   0x655b59c3, 0x8f0ccc92, 0xffeff47d, 0x85845dd1,
   0x6fa87e4f, 0xfe2ce6e0, 0xa3014314, 0x4e0811a1,
   0xf7537e82, 0xbd3af235, 0x2ad7d2bb, 0xeb86d391]

/-- The 64 MD5 per-round left-rotation amounts. -/
def md5S : List Nat :=
  [7, 12, 17, 22, 7, 12, 17, 22, 7, 12, 17, 22, 7, 12, 17, 22,
   5, 9, 14, 20, 5, 9, 14, 20, 5, 9, 14, 20, 5, 9, 14, 20,
   4, 11, 16, 23, 4, 11, 16, 23, 4, 11, 16, 23, 4, 11, 16, 23,
   6, 10, 15, 21, 6, 10, 15, 21, 6, 10, 15, 21, 6, 10, 15, 21]

/-- The MD5 running state: four 32-bit words. -/
structure MD5State where
  a : Nat
  b : Nat
  c : Nat
  d : Nat

/-- Little-endian 32-bit word of a 64-byte chunk at word index `g`. -/
def md5WordAt (chunk : List Nat) (g : Nat) : Nat :=
  chunk.getD (4 * g) 0 + 256 * chunk.getD (4 * g + 1) 0 +
    65536 * chunk.getD (4 * g + 2) 0 + 16777216 * chunk.getD (4 * g + 3) 0

/-- One of the 64 MD5 operations. -/
def md5Round (chunk : List Nat) (st : MD5State) (i : Nat) : MD5State :=
  let fg : Nat × Nat :=
    if i < 16 then ((st.b &&& st.c) ||| (not32 st.b &&& st.d), i)
    else if i < 32 then ((st.d &&& st.b) ||| (not32 st.d &&& st.c), (5 * i + 1) % 16)
    else if i < 48 then (st.b ^^^ st.c ^^^ st.d, (3 * i + 5) % 16)
    else (st.c ^^^ (st.b ||| not32 st.d), (7 * i) % 16)
  let f := (fg.1 + st.a + md5K.getD i 0 + md5WordAt chunk fg.2) % 4294967296
  ⟨st.d, (st.b + rotl32 f (md5S.getD i 0)) % 4294967296, st.b, st.c⟩

/-- Process one 64-byte chunk. -/
def md5Chunk (st : MD5State) (chunk : List Nat) : MD5State :=
  let r := (List.range 64).foldl (md5Round chunk) st
  ⟨(st.a + r.a) % 4294967296, (st.b + r.b) % 4294967296,
   (st.c + r.c) % 4294967296, (st.d + r.d) % 4294967296⟩

/-- The `count` little-endian bytes of `n`. -/
def leBytes (n count : Nat) : List Nat :=
  (List.range count).map (fun i => n / 256 ^ i % 256)

/-- MD5 padding: append `0x80`, zero bytes up to 56 mod 64, then the 64-bit
little-endian bit length. -/
def md5Pad (msg : List Nat) : List Nat :=
  let padZeros := (120 - (msg.length + 1) % 64) % 64
  msg ++ 128 :: List.replicate padZeros 0 ++ leBytes (msg.length * 8 % 2 ^ 64) 8

/-- Process the `n` 64-byte chunks at the front of `l` (the padded message
always consists of whole chunks). -/
def md5Chunks (st : MD5State) (l : List Nat) : Nat → MD5State
  | 0 => st
  | n + 1 => md5Chunks (md5Chunk st (l.take 64)) (l.drop 64) n

/-- The 16-byte MD5 digest of a byte message. -/
def md5DigestBytes (msg : List Nat) : List Nat :=
  let st := md5Chunks ⟨0x67452301, 0xefcdab89, 0x98badcfe, 0x10325476⟩
    (md5Pad msg) ((md5Pad msg).length / 64)
  leBytes st.a 4 ++ leBytes st.b 4 ++ leBytes st.c 4 ++ leBytes st.d 4

/-- The sixteen lowercase hexadecimal digits. -/
def hexDigitsLower : List Char := "0123456789abcdef".data

/-- The sixteen uppercase hexadecimal digits. -/
def hexDigitsUpper : List Char := "0123456789ABCDEF".data

/-- Lowercase hexadecimal digit of `n mod 16`. -/
def hexLowerDigit (n : Nat) : Char := hexDigitsLower.getD (n % 16) '0'

/-- Uppercase hexadecimal digit of `n mod 16`. -/
def hexUpperDigit (n : Nat) : Char := hexDigitsUpper.getD (n % 16) '0'

/-- The two lowercase hex characters of one byte. -/
def byteHexLower (b : Nat) : List Char := [hexLowerDigit (b / 16), hexLowerDigit b]

/-- The two uppercase hex characters of one byte. -/
def byteHexUpper (b : Nat) : List Char := [hexUpperDigit (b / 16), hexUpperDigit b]

/-- Lowercase hexadecimal rendering of a byte list (the `md5` library's
output format). -/
def bytesToHexLower (bs : List Nat) : String := ⟨(bs.map byteHexLower).flatten⟩

/-- Uppercase hexadecimal rendering of a byte list. -/
def bytesToHexUpper (bs : List Nat) : String := ⟨(bs.map byteHexUpper).flatten⟩

/-- UTF-8 encoding of one character. -/
def utf8EncodeChar (c : Char) : List Nat :=
  let n := c.toNat
  if n < 128 then [n]
  else if n < 2048 then [192 + n / 64, 128 + n % 64]
  else if n < 65536 then [224 + n / 4096, 128 + n / 64 % 64, 128 + n % 64]
  else [240 + n / 262144, 128 + n / 4096 % 64, 128 + n / 64 % 64, 128 + n % 64]

/-- UTF-8 encoding of a string. -/
def utf8Encode (s : String) : List Nat := (s.data.map utf8EncodeChar).flatten

/-- The `md5` library function: lowercase hex MD5 digest of the UTF-8 bytes
of a string. -/
def md5 (s : String) : String := bytesToHexLower (md5DigestBytes (utf8Encode s))

/-- JavaScript `String.prototype.toUpperCase()` restricted to the ASCII
range produced by `md5`. -/
def toUpperCase (s : String) : String := ⟨s.data.map Char.toUpper⟩

/-- Embedding of `OKEX.prototype.signMessage` (src/unnamed/part_000:61-68):
canonicalize the parameters, append `&secret_key=<secret>`, MD5, uppercase. -/
def signMessage (params : List (String × JVal)) (secret : String) : String :=
  toUpperCase (md5 (formatParameters params ++ "&secret_key=" ++ secret))

/-! ### JSON-representable response data -/

/-- Structured response data as delivered by the transport or produced by
`JSON.parse` (numbers restricted to the integers this API uses). -/
inductive JsValue where
  | str (s : String)
  | num (n : Int)
  | bool (b : Bool)
  | null
  | undefined
  | arr (elems : List JsValue)
  | obj (fields : List (String × JsValue))

/-- `_.isObject`: true exactly for objects and arrays among JSON values. -/
def JsValue.isObject : JsValue → Bool
  | .obj _ => true
  | .arr _ => true
  | _ => false

/-- Property access `v[k]`; `_.has(v, k)` is `(v.get k).isSome`. -/
def JsValue.get (v : JsValue) (k : String) : Option JsValue :=
  match v with
  | .obj fs => fs.lookup k
  | _ => none

/-- JavaScript string coercion of a JSON value (used for object keys and in
string concatenation). -/
def jsToString : JsValue → String
  | .str s => s
  | .num n => toString n
  | .bool b => cond b "true" "false"
  | .null => "null"
  | .undefined => "undefined"
  | .obj _ => "[object Object]"
  | .arr l => String.intercalate "," (l.attach.map fun x => jsToString x.1)
decreasing_by
  have := List.sizeOf_lt_of_mem x.2
  simp_wf
  omega

/-! ### Errors and the response normalizer -/

/-- The error values the client can hand to the caller's callback.  Each
constructor corresponds to one `new VError(...)` site of the source and
carries the data that site puts into the error. -/
inductive ErrV where
  /-- Missing credentials for a private call. -/
  | config (msg : String)
  /-- Invalid `params` or `callback` argument. -/
  | badArg (msg : String)
  /-- Network-level failure; carries `err.code` and the request description. -/
  | transport (cause : String) (desc : String)
  /-- Non-2xx HTTP status; carries the status code and request description. -/
  | http (status : Nat) (desc : String)
  /-- `JSON.parse` failure on a form (private) response body. -/
  | parseFail (cause : String) (body : String)
  /-- A `json` (public) response the transport could not parse into an object. -/
  | notParsed (desc : String) (data : JsValue)
  /-- Exchange-reported `error_code`; carries the raw code value, the looked-up
  message, and the request description. -/
  | exchange (code : JsValue) (message : String) (desc : String)

/-- True exactly for the HTTP-status-failure error kind. -/
def ErrV.isHttpFail : ErrV → Bool
  | .http _ _ => true
  | _ => false

/-- The fixed exchange error-code table of `mapErrorMessage`
(src/unnamed/part_000:306-385), keyed by the JavaScript property-key strings
of the numeric codes. -/
def errorCodes : List (String × String) :=
  [("10000", "Required parameter can not be null"),
   ("10001", "Requests are too frequent"),
   ("10002", "System Error"),
   ("10003", "Restricted list request, please try again later"),
   ("10004", "IP restriction"),
   ("10005", "Key does not exist"),
   ("10006", "User does not exist"),
   ("10007", "Signatures do not match"),
   ("10008", "Illegal parameter"),
   ("10009", "Order does not exist"),
   ("10010", "Insufficient balance"),
   ("10011", "Order is less than minimum trade amount"),
   ("10012", "Unsupported symbol (not btc_usd or ltc_usd)"),
   ("10013", "This interface only accepts https requests"),
   ("10014", "Order price must be between 0 and 1,000,000"),
   ("10015", "Order price differs from current market price too much"),
   ("10016", "Insufficient coins balance"),
   ("10017", "API authorization error"),
   ("10026", "Loan (including reserved loan) and margin cannot be withdrawn"),
   ("10027", "Cannot withdraw within 24 hrs of authentication information modification"),
   ("10028", "Withdrawal amount exceeds daily limit"),
   ("10029", "Account has unpaid loan, please cancel/pay off the loan before withdraw"),
   ("10031", "Deposits can only be withdrawn after 6 confirmations"),
   ("10032", "Please enabled phone/google authenticator"),
   ("10033", "Fee higher than maximum network transaction fee"),
   ("10034", "Fee lower than minimum network transaction fee"),
   ("10035", "Insufficient BTC/LTC"),
   ("10036", "Withdrawal amount too low"),
   ("10037", "Trade password not set"),
   ("10040", "Withdrawal cancellation fails"),
   ("10041", "Withdrawal address not approved"),
   ("10042", "Admin password error"),
   ("10100", "User account frozen"),
   ("10216", "Non-available API"),
   ("20001", "用户不存在"),
   ("20002", "用户被冻结"),
   ("20003", "用户被爆仓冻结"),
   ("20004", "合约账户被冻结"),
   ("20005", "用户合约账户不存在"),
   ("20006", "必填参数为空"),
   ("20007", "参数错误"),
   ("20008", "合约账户余额为空"),
   ("20009", "虚拟合约状态错误"),
   ("20010", "合约风险率信息不存在"),
   ("20011", "10倍/20倍杠杆开BTC前保证金率低于90%/80%，10倍/20倍杠杆开LTC前保证金率低于80%/60%"),
   ("20012", "10倍/20倍杠杆开BTC后保证金率低于90%/80%，10倍/20倍杠杆开LTC后保证金率低于80%/60%"),
   ("20013", "暂无对手价"),
   ("20014", "系统错误"),
   ("20015", "订单信息不存在"),
   ("20016", "平仓数量是否大于同方向可用持仓数量"),
   ("20017", "非本人操作"),
   ("20018", "下单价格高于前一分钟的103%或低于97%"),
   ("20019", "该IP限制不能请求该资源"),
   ("20020", "密钥不存在"),
   ("20021", "指数信息不存在"),
   ("20022", "接口调用错误（全仓模式调用全仓接口，逐仓模式调用逐仓接口）"),
   ("20023", "逐仓用户"),
   ("20024", "sign签名不匹配"),
   ("20025", "杠杆比率错误"),
   ("20026", "API鉴权错误"),
   ("20027", "无交易记录"),
   ("20028", "合约不存在"),
   ("20029", "转出金额大于可转金额"),
   ("20030", "账户存在借款"),
   ("20038", "根据相关法律，您所在的国家或地区不能使用该功能。"),
   ("20049", "用户请求接口过于频繁"),
   ("20061", "合约相同方向只支持一个杠杆，若有10倍多单，就不能再下20倍多单"),
   ("21020", "合约交割中，无法下单"),
   ("21021", "合约清算中，无法下单"),
   ("503", "Too many requests (Http)")]

/-- Embedding of `mapErrorMessage` (src/unnamed/part_000:306-385) applied to
the property-key string of the error code.  The source tests
`!errorCodes[error_code]`, which is also true for an empty-string entry,
hence the explicit emptiness check. -/
def mapErrorMessage (key : String) : String :=
  match errorCodes.lookup key with
  | some m => if m = "" then "Unknown OKEX error code: " ++ key else m
  | none => "Unknown OKEX error code: " ++ key

/-- The transport outcome handed to the response callback of `request`:
`err` is the network-level failure (carrying `err.code`), then the HTTP
status code and the response data (`JsValue.str` for a raw body). -/
structure TransportResp where
  err : Option String
  statusCode : Nat
  data : JsValue

/-- The branch cascade of `executeRequest`'s response handler
(src/unnamed/part_000:127-151) before the `error_code` check: computes the
`(error, returnObject)` pair.  `parse` models `JSON.parse` (`.error` is the
thrown exception's message). -/
def normalizeStep1 (hasForm hasJson : Bool) (requestDesc : String)
    (parse : String → Except String JsValue) (r : TransportResp) :
    Option ErrV × JsValue :=
  match r.err with
  | some code => (some (ErrV.transport code requestDesc), r.data)
  | none =>
    if r.statusCode < 200 ∨ 300 ≤ r.statusCode then
      (some (ErrV.http r.statusCode requestDesc), r.data)
    else if hasForm then
      match parse (jsToString r.data) with
      | .ok v => (none, v)
      | .error e => (some (ErrV.parseFail e (jsToString r.data)), r.data)
    else if hasJson ∧ ¬ r.data.isObject then
      (some (ErrV.notParsed requestDesc r.data), r.data)
    else (none, r.data)

/-- The `_.has(returnObject, 'error_code')` override
(src/unnamed/part_000:153-161): an `error_code` field replaces any previously
computed error (or success) with the exchange-reported error. -/
def applyErrorCode (requestDesc : String) (p : Option ErrV × JsValue) :
    Option ErrV × JsValue :=
  match p.2.get "error_code" with
  | some cv =>
    (some (ErrV.exchange cv (mapErrorMessage (jsToString cv)) requestDesc), p.2)
  | none => p

/-- The full response normalization of `executeRequest`'s handler. -/
def handleResponse (hasForm hasJson : Bool) (requestDesc : String)
    (parse : String → Except String JsValue) (r : TransportResp) :
    Option ErrV × JsValue :=
  applyErrorCode requestDesc (normalizeStep1 hasForm hasJson requestDesc parse r)

/-! ### Request building -/

/-- The options record assembled by `privateRequest` / `publicRequest` for the
`request` transport call. -/
structure ReqOptions where
  url : String
  method : String
  form : Option (List (String × JVal))
  qs : Option (List (String × JVal))
  timeout : Option Nat
  json : Bool

/-- Embedding of `executeRequest` (src/unnamed/part_000:124-165) for one
transport response: the list of callback invocations performed, each carrying
the error as first component and the data as second. -/
def executeRequest (opts : ReqOptions) (requestDesc : String)
    (parse : String → Except String JsValue) (r : TransportResp) :
    List (Option ErrV × JsValue) :=
  [handleResponse opts.form.isSome opts.json requestDesc parse r]

/-- Is a callback invocation an error outcome (error argument non-null)? -/
def isErrorOutcome (inv : Option ErrV × JsValue) : Bool := inv.1.isSome

/-- Is a callback invocation a success outcome (error argument null)? -/
def isSuccessOutcome (inv : Option ErrV × JsValue) : Bool := inv.1.isNone

/-- The `params` argument of `privateRequest` / `publicRequest`: an object
(a parameter mapping) or any non-object value, carrying its string rendering
for the error message. -/
inductive ParamsArg where
  | obj (ps : List (String × JVal))
  | nonObj (rendered : String)

/-- `_.isObject(params)`. -/
def ParamsArg.isObject : ParamsArg → Bool
  | .obj _ => true
  | .nonObj _ => false

/-- The fields of an object argument. -/
def ParamsArg.fields : ParamsArg → List (String × JVal)
  | .obj ps => ps
  | .nonObj _ => []

/-- The `%s` rendering of the argument in the error message. -/
def ParamsArg.render : ParamsArg → String
  | .obj _ => "[object Object]"
  | .nonObj r => r

/-- What a request-level call does synchronously: crash with a thrown
`TypeError` (from invoking a non-function callback), invoke the callback once
with an error and no data, or issue one network request. -/
inductive ReqOutcome where
  | thrown
  | delivered (e : ErrV)
  | network (opts : ReqOptions)

/-- `return callback(error)`: invoking the callback value throws a
`TypeError` when it is not a function. -/
def invokeCb (cbIsFn : Bool) (e : ErrV) : ReqOutcome :=
  if cbIsFn then .delivered e else .thrown

/-- The client state set up by the `OKEX` constructor
(src/unnamed/part_000:8-13); the `||` defaults mean an empty server or zero
timeout also falls back. -/
structure OKEXClient where
  api_key : String
  secret : String
  server : String
  timeout : Nat

/-- The `OKEX` constructor with its falsy-guarded defaults. -/
def OKEX.mkClient (api_key secret server : String) (timeout : Nat) : OKEXClient :=
  ⟨api_key, secret, if server = "" then "https://www.okex.com" else server,
   if timeout = 0 then 20000 else timeout⟩

/-- JavaScript object property assignment `ps[k] = v` on an association
list: overwrite in place if the key exists, else append. -/
def objSet (ps : List (String × JVal)) (k : String) (v : JVal) :
    List (String × JVal) :=
  if (ps.lookup k).isSome then ps.map (fun p => if p.1 = k then (k, v) else p)
  else ps ++ [(k, v)]

/-- Embedding of `OKEX.prototype.privateRequest` (src/unnamed/part_000:20-54):
credential, params and callback checks, then signing and the POST options.
No timeout is set on private requests. -/
def privateRequest (c : OKEXClient) (method : String) (params : ParamsArg)
    (cbIsFn : Bool) : ReqOutcome :=
  if c.api_key = "" ∨ c.secret = "" then
    invokeCb cbIsFn
      (.config "OKEX.privateRequest() must provide api_key and secret to make this API request.")
  else if ¬ params.isObject then
    invokeCb cbIsFn
      (.badArg ("OKEX.privateRequest() second parameter " ++ params.render ++
        " must be an object. If no params then pass an empty object \x7b\x7d"))
  else if ¬ cbIsFn then
    invokeCb cbIsFn
      (.badArg "OKEX.privateRequest() third parameter needs to be a callback function")
  else
    let ps1 := objSet params.fields "api_key" (JVal.s c.api_key)
    let ps2 := objSet ps1 "sign" (JVal.s (signMessage ps1 c.secret))
    .network
      { url := c.server ++ "/api/v1/" ++ method ++ ".do"
        method := "POST"
        form := some ps2
        qs := none
        timeout := none
        json := false }

/-- Embedding of `OKEX.prototype.publicRequest` (src/unnamed/part_000:94-122):
params and callback checks, then the GET options with query string, the
configured timeout and JSON parsing. -/
def publicRequest (c : OKEXClient) (method : String) (params : ParamsArg)
    (cbIsFn : Bool) : ReqOutcome :=
  if ¬ params.isObject then
    invokeCb cbIsFn
      (.badArg ("OKEX.publicRequest() second parameter " ++ params.render ++
        " must be an object. If no params then pass an empty object \x7b\x7d"))
  else if ¬ cbIsFn then
    invokeCb cbIsFn
      (.badArg "OKEX.publicRequest() third parameter needs to be a callback function with err and data parameters")
  else
    .network
      { url := c.server ++ "/api/v1/" ++ method ++ ".do"
        method := "GET"
        form := none
        qs := some params.fields
        timeout := some c.timeout
        json := true }

/-! ### Endpoint façade methods used by the claims -/

/-- `OKEX.prototype.getKline` (src/unnamed/part_000:195-202): `symbol` always,
`type`/`size`/`since` only when truthy. -/
def getKline (c : OKEXClient) (cbIsFn : Bool)
    (symbol type size since : Option String) : ReqOutcome :=
  let params := [("symbol", JVal.ofOpt symbol)]
  let params := if truthyOpt type then objSet params "type" (JVal.ofOpt type) else params
  let params := if truthyOpt size then objSet params "size" (JVal.ofOpt size) else params
  let params := if truthyOpt since then objSet params "since" (JVal.ofOpt since) else params
  publicRequest c "kline" (.obj params) cbIsFn

/-- `OKEX.prototype.getLendDepth` (src/unnamed/part_000:204-206): issues a
public request to the `kline` endpoint with only `symbol`. -/
def getLendDepth (c : OKEXClient) (cbIsFn : Bool) (symbol : Option String) :
    ReqOutcome :=
  publicRequest c "kline" (.obj [("symbol", JVal.ofOpt symbol)]) cbIsFn

/-- `OKEX.prototype.getTradeHistory` (src/unnamed/part_000:268-273): `symbol`
and `since` are put in the mapping unconditionally. -/
def getTradeHistory (c : OKEXClient) (cbIsFn : Bool)
    (symbol since : Option String) : ReqOutcome :=
  privateRequest c "trade_history"
    (.obj [("symbol", JVal.ofOpt symbol), ("since", JVal.ofOpt since)]) cbIsFn

/-- `OKEX.prototype.getOrdersInfo` (src/unnamed/part_000:251-257): `symbol`,
`type` and `order_id` are put in the mapping unconditionally. -/
def getOrdersInfo (c : OKEXClient) (cbIsFn : Bool)
    (symbol type order_id : Option String) : ReqOutcome :=
  privateRequest c "orders_info"
    (.obj [("symbol", JVal.ofOpt symbol), ("type", JVal.ofOpt type),
      ("order_id", JVal.ofOpt order_id)]) cbIsFn

/-- `OKEX.prototype.addTrade` (src/unnamed/part_000:216-227): `symbol` and
`type` always, `amount` and `price` only when truthy. -/
def addTrade (c : OKEXClient) (cbIsFn : Bool)
    (symbol type amount price : Option String) : ReqOutcome :=
  let params := [("symbol", JVal.ofOpt symbol), ("type", JVal.ofOpt type)]
  let params := if truthyOpt amount then objSet params "amount" (JVal.ofOpt amount) else params
  let params := if truthyOpt price then objSet params "price" (JVal.ofOpt price) else params
  privateRequest c "trade" (.obj params) cbIsFn

/-- The form-field mapping of an issued network request (empty when no
request was issued). -/
def reqFormFields : ReqOutcome → List (String × JVal)
  | .network o => o.form.getD []
  | _ => []

/-- The query-string mapping of an issued network request. -/
def reqQsFields : ReqOutcome → List (String × JVal)
  | .network o => o.qs.getD []
  | _ => []

/-- A concrete client with valid credentials, for witnesses. -/
def testClient : OKEXClient := ⟨"testKey", "testSecret", "https://www.okex.com", 20000⟩

/-- A concrete stand-in for `JSON.parse` in witnesses that never reach the
parse branch. -/
def alwaysFailParse : String → Except String JsValue := fun s => .error s

/-! ### Digest shape lemmas -/

theorem leBytes_length (n c : Nat) : (leBytes n c).length = c := by
  simp [leBytes]

theorem leBytes_lt (n c : Nat) : ∀ b ∈ leBytes n c, b < 256 := by
  intro b hb
  simp only [leBytes, List.mem_map] at hb
  obtain ⟨i, _, rfl⟩ := hb
  exact Nat.mod_lt _ (by norm_num)

theorem md5DigestBytes_length (msg : List Nat) : (md5DigestBytes msg).length = 16 := by
  simp [md5DigestBytes, leBytes_length]

theorem md5DigestBytes_lt (msg : List Nat) : ∀ b ∈ md5DigestBytes msg, b < 256 := by
  intro b hb
  simp only [md5DigestBytes, List.mem_append] at hb
  rcases hb with ((hb | hb) | hb) | hb <;> exact leBytes_lt _ _ _ hb

theorem char_toUpper_hexLower (n : Nat) :
    Char.toUpper (hexLowerDigit n) = hexUpperDigit n := by
  simp only [hexLowerDigit, hexUpperDigit]
  have h : n % 16 < 16 := Nat.mod_lt _ (by norm_num)
  set m := n % 16 with hm
  interval_cases m <;> decide

theorem hexUpperDigit_mem (n : Nat) : hexUpperDigit n ∈ hexDigitsUpper := by
  simp only [hexUpperDigit]
  have h : n % 16 < 16 := Nat.mod_lt _ (by norm_num)
  set m := n % 16 with hm
  interval_cases m <;> decide

theorem hexFlatten_length (bs : List Nat) :
    ((bs.map byteHexUpper).flatten).length = 2 * bs.length := by
  induction bs with
  | nil => simp
  | cons b tl ih =>
    simp only [List.map_cons, List.flatten_cons, List.length_append, List.length_cons, ih,
      byteHexUpper, List.length_nil]
    omega

theorem toUpperCase_bytesToHexLower (bs : List Nat) :
    toUpperCase (bytesToHexLower bs) = bytesToHexUpper bs := by
  unfold toUpperCase bytesToHexLower bytesToHexUpper
  congr 1
  rw [show (String.mk ((bs.map byteHexLower).flatten)).data = (bs.map byteHexLower).flatten
    from rfl]
  rw [List.map_flatten, List.map_map]
  congr 1
  refine List.map_congr_left ?_
  intro b _
  simp [Function.comp, byteHexLower, byteHexUpper, char_toUpper_hexLower]

theorem bytesToHexUpper_length (bs : List Nat) :
    (bytesToHexUpper bs).length = 2 * bs.length := by
  show ((bs.map byteHexUpper).flatten).length = 2 * bs.length
  exact hexFlatten_length bs

theorem bytesToHexUpper_mem (bs : List Nat) :
    ∀ ch ∈ (bytesToHexUpper bs).data, ch ∈ hexDigitsUpper := by
  intro ch hch
  have hm : ch ∈ (bs.map byteHexUpper).flatten := hch
  rw [List.mem_flatten] at hm
  obtain ⟨l, hl, hcl⟩ := hm
  rw [List.mem_map] at hl
  obtain ⟨b, _, rfl⟩ := hl
  simp only [byteHexUpper, List.mem_cons, List.not_mem_nil, or_false] at hcl
  rcases hcl with rfl | rfl <;> exact hexUpperDigit_mem _

/-! ### Order properties of the key comparator -/

theorem charListLe_total : ∀ (l₁ l₂ : List Char),
    charListLe l₁ l₂ = true ∨ charListLe l₂ l₁ = true := by
  intro l₁
  induction l₁ with
  | nil => intro l₂; exact Or.inl rfl
  | cons x xs ih =>
    intro l₂
    cases l₂ with
    | nil => exact Or.inr rfl
    | cons y ys =>
      simp only [charListLe]
      rcases lt_trichotomy x y with h | rfl | h
      · left; simp [h]
      · simpa [lt_irrefl] using ih ys
      · right; simp [h]

theorem charListLe_trans : ∀ (l₁ l₂ l₃ : List Char),
    charListLe l₁ l₂ = true → charListLe l₂ l₃ = true → charListLe l₁ l₃ = true := by
  intro l₁
  induction l₁ with
  | nil => intro l₂ l₃ _ _; rfl
  | cons x xs ih =>
    intro l₂ l₃ h₁ h₂
    cases l₂ with
    | nil => simp [charListLe] at h₁
    | cons y ys =>
      cases l₃ with
      | nil => simp [charListLe] at h₂
      | cons z zs =>
        simp only [charListLe] at h₁ h₂ ⊢
        rcases lt_trichotomy x y with hxy | rfl | hxy
        · rcases lt_trichotomy y z with hyz | rfl | hyz
          · simp [lt_trans hxy hyz]
          · simp [hxy]
          · simp [lt_asymm hyz, hyz] at h₂
        · rcases lt_trichotomy x z with hxz | rfl | hxz
          · simp [hxz]
          · simp only [lt_irrefl, if_false] at h₁ h₂ ⊢
            exact ih ys zs h₁ h₂
          · simp [lt_asymm hxz, hxz] at h₂
        · simp [lt_asymm hxy, hxy] at h₁

theorem charListLe_antisymm : ∀ (l₁ l₂ : List Char),
    charListLe l₁ l₂ = true → charListLe l₂ l₁ = true → l₁ = l₂ := by
  intro l₁
  induction l₁ with
  | nil =>
    intro l₂ h₁ h₂
    cases l₂ with
    | nil => rfl
    | cons y ys => simp [charListLe] at h₂
  | cons x xs ih =>
    intro l₂ h₁ h₂
    cases l₂ with
    | nil => simp [charListLe] at h₁
    | cons y ys =>
      simp only [charListLe] at h₁ h₂
      rcases lt_trichotomy x y with hxy | rfl | hxy
      · simp [lt_asymm hxy, hxy] at h₂
      · simp only [lt_irrefl, if_false] at h₁ h₂
        rw [ih ys h₁ h₂]
      · simp [lt_asymm hxy, hxy] at h₁

theorem strLe_total (a b : String) : strLe a b = true ∨ strLe b a = true :=
  charListLe_total a.data b.data

theorem strLe_trans {a b c : String} (h₁ : strLe a b = true) (h₂ : strLe b c = true) :
    strLe a c = true :=
  charListLe_trans a.data b.data c.data h₁ h₂

theorem strLe_antisymm {a b : String} (h₁ : strLe a b = true) (h₂ : strLe b a = true) :
    a = b :=
  String.ext (charListLe_antisymm a.data b.data h₁ h₂)

/-! ### Association-list lookup lemmas -/

theorem lookup_eq_none_iff {κ : Type} {ω : Type} [BEq κ] [LawfulBEq κ]
    (al : List (κ × ω)) (key : κ) :
    al.lookup key = none ↔ key ∉ al.map Prod.fst := by
  induction al with
  | nil => simp [List.lookup]
  | cons kv rest ih =>
    obtain ⟨k', v'⟩ := kv
    by_cases h : key = k'
    · subst h
      simp [List.lookup]
    · simp only [List.lookup, beq_false_of_ne h, List.map_cons, List.mem_cons]
      rw [ih]
      simp [h]

theorem mem_of_lookup_eq_some {κ : Type} {ω : Type} [BEq κ] [LawfulBEq κ]
    {al : List (κ × ω)} {key : κ} {val : ω} (h : al.lookup key = some val) :
    (key, val) ∈ al := by
  induction al with
  | nil => simp [List.lookup] at h
  | cons kv rest ih =>
    obtain ⟨k', v'⟩ := kv
    by_cases hk : key = k'
    · subst hk
      simp [List.lookup] at h
      simp [h]
    · simp only [List.lookup, beq_false_of_ne hk] at h
      exact List.mem_cons_of_mem _ (ih h)

theorem lookup_eq_some_of_mem {κ : Type} {ω : Type} [BEq κ] [LawfulBEq κ]
    {al : List (κ × ω)} (hnd : (al.map Prod.fst).Nodup) {key : κ} {val : ω}
    (hm : (key, val) ∈ al) : al.lookup key = some val := by
  induction al with
  | nil => simp at hm
  | cons kv rest ih =>
    obtain ⟨k', v'⟩ := kv
    simp only [List.map_cons, List.nodup_cons] at hnd
    rcases List.mem_cons.mp hm with h | h
    · obtain ⟨rfl, rfl⟩ := Prod.mk.injEq .. ▸ h
      simp [List.lookup]
    · have hne : key ≠ k' := by
        rintro rfl
        exact hnd.1 (List.mem_map_of_mem Prod.fst h)
      simp only [List.lookup, beq_false_of_ne hne]
      exact ih hnd.2 h

theorem perm_lookup_eq {κ : Type} {ω : Type} [BEq κ] [LawfulBEq κ]
    {al₁ al₂ : List (κ × ω)} (hp : al₁.Perm al₂) (hnd : (al₁.map Prod.fst).Nodup)
    (key : κ) : al₁.lookup key = al₂.lookup key := by
  have hnd₂ : (al₂.map Prod.fst).Nodup := ((hp.map Prod.fst).nodup_iff).mp hnd
  cases h : al₁.lookup key with
  | none =>
    have hk : key ∉ al₁.map Prod.fst := (lookup_eq_none_iff al₁ key).mp h
    have hk₂ : key ∉ al₂.map Prod.fst := fun hc => hk ((hp.map Prod.fst).mem_iff.mpr hc)
    exact ((lookup_eq_none_iff al₂ key).mpr hk₂).symm
  | some val =>
    exact (lookup_eq_some_of_mem hnd₂ (hp.mem_iff.mp (mem_of_lookup_eq_some h))).symm

/-- C1: `formatParameters` returns the `key=value` pairs joined by `&` with
keys in ascending lexicographic order and values concatenated literally (the
second conjunct restates it as a sort of the key/value pairs themselves); the
empty mapping yields the empty string; and any two mappings with the same
key/value pairs, regardless of insertion order, yield the identical canonical
string. -/
theorem formatParameters_canonical :
    formatParameters [] = "" ∧
    (∀ params : List (String × JVal), (params.map Prod.fst).Nodup →
      formatParameters params = String.intercalate "&"
        ((List.insertionSort (fun p q : String × JVal => strLe p.1 q.1 = true) params).map
          (fun p => p.1 ++ "=" ++ p.2.toStr))) ∧
    (∀ p₁ p₂ : List (String × JVal), (p₁.map Prod.fst).Nodup → p₁.Perm p₂ →
      formatParameters p₁ = formatParameters p₂) := by
  haveI iTot : IsTotal String (fun a b => strLe a b = true) := ⟨strLe_total⟩
  haveI iTrans : IsTrans String (fun a b => strLe a b = true) :=
    ⟨fun _ _ _ => strLe_trans⟩
  haveI iAnti : IsAntisymm String (fun a b => strLe a b = true) :=
    ⟨fun _ _ => strLe_antisymm⟩
  haveI iTotP : IsTotal (String × JVal) (fun p q => strLe p.1 q.1 = true) :=
    ⟨fun p q => strLe_total p.1 q.1⟩
  haveI iTransP : IsTrans (String × JVal) (fun p q => strLe p.1 q.1 = true) :=
    ⟨fun _ _ _ => strLe_trans⟩
  refine ⟨rfl, ?_, ?_⟩
  · intro params hnd
    have hkeys : List.insertionSort (fun a b => strLe a b = true) (params.map Prod.fst) =
        (List.insertionSort (fun p q : String × JVal => strLe p.1 q.1 = true) params).map
          Prod.fst := by
      refine List.eq_of_perm_of_sorted ?_
        (List.sorted_insertionSort (fun a b => strLe a b = true) _) ?_
      · exact (List.perm_insertionSort _ _).trans
          ((List.perm_insertionSort
            (fun p q : String × JVal => strLe p.1 q.1 = true) params).map Prod.fst).symm
      · exact List.pairwise_map.mpr
          (List.sorted_insertionSort (fun p q : String × JVal => strLe p.1 q.1 = true) params)
    unfold formatParameters
    rw [hkeys, List.map_map]
    congr 1
    refine List.map_congr_left ?_
    intro p hp
    have hpmem : p ∈ params :=
      (List.perm_insertionSort
        (fun p q : String × JVal => strLe p.1 q.1 = true) params).mem_iff.mp hp
    have hlk : params.lookup p.1 = some p.2 :=
      lookup_eq_some_of_mem hnd (by simpa using hpmem)
    simp [Function.comp, hlk]
  · intro p₁ p₂ hnd hperm
    have hkeys : List.insertionSort (fun a b => strLe a b = true) (p₁.map Prod.fst) =
        List.insertionSort (fun a b => strLe a b = true) (p₂.map Prod.fst) := by
      refine List.eq_of_perm_of_sorted ?_
        (List.sorted_insertionSort (fun a b => strLe a b = true) _)
        (List.sorted_insertionSort (fun a b => strLe a b = true) _)
      exact (List.perm_insertionSort _ _).trans
        ((hperm.map Prod.fst).trans (List.perm_insertionSort _ _).symm)
    unfold formatParameters
    rw [hkeys]
    congr 1
    refine List.map_congr_left ?_
    intro k _
    rw [perm_lookup_eq hperm hnd k]

/-- C1 witness: a concrete two-entry mapping in either insertion order. -/
theorem formatParameters_canonical_witness :
    (([("b", JVal.s "2"), ("a", JVal.s "1")]).map Prod.fst).Nodup ∧
    formatParameters [("b", JVal.s "2"), ("a", JVal.s "1")] =
      formatParameters [("a", JVal.s "1"), ("b", JVal.s "2")] :=
  ⟨by decide, formatParameters_canonical.2.2 _ _ (by decide) (List.Perm.swap _ _ _)⟩

/-- C2: `signMessage` returns the uppercase hexadecimal rendering of the
128-bit (16-byte, byte-valued) MD5 digest of the canonical string with
`&secret_key=<secret>` appended, and the result is always an uppercase
hexadecimal string of exactly 32 characters. -/
theorem signMessage_spec (params : List (String × JVal)) (secret : String) :
    signMessage params secret =
      bytesToHexUpper (md5DigestBytes (utf8Encode
        (formatParameters params ++ "&secret_key=" ++ secret))) ∧
    (md5DigestBytes (utf8Encode
      (formatParameters params ++ "&secret_key=" ++ secret))).length = 16 ∧
    (∀ b ∈ md5DigestBytes (utf8Encode
      (formatParameters params ++ "&secret_key=" ++ secret)), b < 256) ∧
    (signMessage params secret).length = 32 ∧
    (∀ ch ∈ (signMessage params secret).data, ch ∈ hexDigitsUpper) := by
  have h1 : signMessage params secret =
      bytesToHexUpper (md5DigestBytes (utf8Encode
        (formatParameters params ++ "&secret_key=" ++ secret))) :=
    toUpperCase_bytesToHexLower _
  refine ⟨h1, md5DigestBytes_length _, md5DigestBytes_lt _, ?_, ?_⟩
  · rw [h1, bytesToHexUpper_length, md5DigestBytes_length]
  · rw [h1]
    exact bytesToHexUpper_mem _

set_option maxRecDepth 40000 in
/-- C2 witness: the first character of a concrete signature is among the
uppercase hexadecimal digits. -/
theorem signMessage_spec_witness :
    '6' ∈ (signMessage [] "").data ∧ '6' ∈ hexDigitsUpper :=
  ⟨by decide, (signMessage_spec [] "").2.2.2.2 '6' (by decide)⟩

/-- C3: for every transport response, `executeRequest` invokes the caller's
callback exactly once, the invocation carrying the error as first component
and the data as second, and the delivered outcome is an error exactly when it
is not a success (never both, never neither). -/
theorem executeRequest_single_invocation (opts : ReqOptions) (desc : String)
    (parse : String → Except String JsValue) (r : TransportResp) :
    (executeRequest opts desc parse r).length = 1 ∧
    ∀ inv ∈ executeRequest opts desc parse r,
      (isErrorOutcome inv = true ↔ isSuccessOutcome inv = false) := by
  refine ⟨rfl, ?_⟩
  intro inv hinv
  simp only [executeRequest, List.mem_singleton] at hinv
  subst hinv
  cases h : (handleResponse opts.form.isSome opts.json desc parse r).1 <;>
    simp [isErrorOutcome, isSuccessOutcome, h]

/-- C3 witness: a concrete public-request response delivered once as a
success. -/
theorem executeRequest_single_invocation_witness :
    (none, JsValue.obj []) ∈ executeRequest
      ⟨"https://www.okex.com/api/v1/ticker.do", "GET", none, none, some 20000, true⟩
      "GET request" alwaysFailParse ⟨none, 200, JsValue.obj []⟩ ∧
    (isErrorOutcome ((none, JsValue.obj []) : Option ErrV × JsValue) = true ↔
      isSuccessOutcome ((none, JsValue.obj []) : Option ErrV × JsValue) = false) := by
  have hmem : (none, JsValue.obj []) ∈ executeRequest
      ⟨"https://www.okex.com/api/v1/ticker.do", "GET", none, none, some 20000, true⟩
      "GET request" alwaysFailParse ⟨none, 200, JsValue.obj []⟩ := by
    show ((none, JsValue.obj []) : Option ErrV × JsValue) ∈ [(none, JsValue.obj [])]
    exact List.mem_singleton.mpr rfl
  exact ⟨hmem, (executeRequest_single_invocation _ _ _ _).2 _ hmem⟩

/-- C4: whenever the resulting structured data contains an `error_code`
field, the normalized outcome is the exchange-reported error (overriding any
prior determination), whose message is looked up from the fixed code table;
codes absent from the table get the generic unknown-code message embedding
the raw code. -/
theorem errorCode_overrides (hasForm hasJson : Bool) (desc : String)
    (parse : String → Except String JsValue) (r : TransportResp) :
    (∀ cv, (handleResponse hasForm hasJson desc parse r).2.get "error_code" = some cv →
      (handleResponse hasForm hasJson desc parse r).1 =
        some (ErrV.exchange cv (mapErrorMessage (jsToString cv)) desc)) ∧
    (∀ k m, errorCodes.lookup k = some m → mapErrorMessage k = m) ∧
    (∀ k, errorCodes.lookup k = none →
      mapErrorMessage k = "Unknown OKEX error code: " ++ k) := by
  have h2 : (handleResponse hasForm hasJson desc parse r).2 =
      (normalizeStep1 hasForm hasJson desc parse r).2 := by
    unfold handleResponse applyErrorCode
    cases hq : (normalizeStep1 hasForm hasJson desc parse r).2.get "error_code" <;>
      simp [hq]
  refine ⟨?_, ?_, ?_⟩
  · intro cv hcv
    rw [h2] at hcv
    unfold handleResponse applyErrorCode
    simp only [hcv]
  · intro k m hk
    unfold mapErrorMessage
    rw [hk]
    have hne : m ≠ "" := by
      have hmem : (k, m) ∈ errorCodes := mem_of_lookup_eq_some hk
      have hall : ∀ p ∈ errorCodes, p.2 ≠ "" := by decide
      exact hall _ hmem
    simp [hne]
  · intro k hk
    unfold mapErrorMessage
    rw [hk]

/-- C4 witness: a body `{"error_code": 10007}` under HTTP 200 normalizes to
the exchange error with message "Signatures do not match". -/
theorem errorCode_overrides_witness :
    (handleResponse false true "POST request" alwaysFailParse
      ⟨none, 200, JsValue.obj [("error_code", JsValue.num 10007)]⟩).2.get "error_code" =
        some (JsValue.num 10007) ∧
    (handleResponse false true "POST request" alwaysFailParse
      ⟨none, 200, JsValue.obj [("error_code", JsValue.num 10007)]⟩).1 =
        some (ErrV.exchange (JsValue.num 10007) "Signatures do not match" "POST request") := by
  have hm : mapErrorMessage (jsToString (JsValue.num 10007)) = "Signatures do not match" := by
    simp only [jsToString]
    decide
  refine ⟨rfl, ?_⟩
  have h := (errorCode_overrides false true "POST request" alwaysFailParse
    ⟨none, 200, JsValue.obj [("error_code", JsValue.num 10007)]⟩).1 (JsValue.num 10007) rfl
  rw [h, hm]

/-- C5: a private call with missing credentials or a non-mapping parameters
argument issues no network request, and (when a callback function is
supplied) synchronously delivers the configuration error respectively the
argument error. -/
theorem privateRequest_preconditions (c : OKEXClient) (method : String)
    (params : ParamsArg) (cbIsFn : Bool) :
    ((c.api_key = "" ∨ c.secret = "") →
      (∀ o, privateRequest c method params cbIsFn ≠ .network o) ∧
      (cbIsFn = true → privateRequest c method params cbIsFn =
        .delivered (.config
          "OKEX.privateRequest() must provide api_key and secret to make this API request."))) ∧
    (c.api_key ≠ "" → c.secret ≠ "" → params.isObject = false →
      (∀ o, privateRequest c method params cbIsFn ≠ .network o) ∧
      (cbIsFn = true → privateRequest c method params cbIsFn =
        .delivered (.badArg
          ("OKEX.privateRequest() second parameter " ++ params.render ++
            " must be an object. If no params then pass an empty object \x7b\x7d")))) := by
  constructor
  · intro hcred
    have heq : privateRequest c method params cbIsFn = invokeCb cbIsFn
        (.config
          "OKEX.privateRequest() must provide api_key and secret to make this API request.") := by
      unfold privateRequest
      rw [if_pos hcred]
    constructor
    · intro o
      rw [heq]
      unfold invokeCb
      cases cbIsFn <;> simp
    · intro hcb
      subst hcb
      rw [heq]
      rfl
  · intro hk hs hobj
    have hc : ¬ (c.api_key = "" ∨ c.secret = "") := by
      rintro (h | h)
      · exact hk h
      · exact hs h
    have hno : ¬ (params.isObject = true) := by simp [hobj]
    have heq : privateRequest c method params cbIsFn = invokeCb cbIsFn
        (.badArg
          ("OKEX.privateRequest() second parameter " ++ params.render ++
            " must be an object. If no params then pass an empty object \x7b\x7d")) := by
      unfold privateRequest
      rw [if_neg hc, if_pos hno]
    constructor
    · intro o
      rw [heq]
      unfold invokeCb
      cases cbIsFn <;> simp
    · intro hcb
      subst hcb
      rw [heq]
      rfl

/-- C5 witness: empty credentials on a `userinfo` call deliver the
configuration error synchronously. -/
theorem privateRequest_preconditions_witness :
    ((⟨"", "", "https://www.okex.com", 20000⟩ : OKEXClient).api_key = "" ∨
      (⟨"", "", "https://www.okex.com", 20000⟩ : OKEXClient).secret = "") ∧
    privateRequest ⟨"", "", "https://www.okex.com", 20000⟩ "userinfo"
      (.obj []) true =
      .delivered (.config
        "OKEX.privateRequest() must provide api_key and secret to make this API request.") :=
  ⟨Or.inl rfl,
    ((privateRequest_preconditions ⟨"", "", "https://www.okex.com", 20000⟩
      "userinfo" (.obj []) true).1 (Or.inl rfl)).2 rfl⟩

/-- C6 (observed code behavior at the callback check): with a non-function
callback, every request-level call — whatever the credentials or parameters —
ends in a thrown `TypeError` from invoking the non-function callback; the
constructed argument error is never delivered and no network request is
issued. -/
theorem callback_check_throws (c : OKEXClient) (method : String) (params : ParamsArg) :
    privateRequest c method params false = .thrown ∧
    publicRequest c method params false = .thrown := by
  constructor
  · unfold privateRequest invokeCb
    split_ifs <;> simp_all
  · unfold publicRequest invokeCb
    split_ifs <;> simp_all

/-- C7 counterexample: a received response with HTTP status 500 whose
structured body carries an `error_code` field normalizes to the
exchange-reported error, not to the HTTP-failure kind. -/
theorem http_status_counterexample :
    (handleResponse false true "GET request" alwaysFailParse
      ⟨none, 500, JsValue.obj [("error_code", JsValue.num 20024)]⟩).1.map
        ErrV.isHttpFail = some false := rfl

/-- C7 (amended): a received response (no network error) with HTTP status
outside [200, 300) always normalizes to an error — never a success — and
that error is the HTTP failure carrying the status code and request
description whenever the resulting data has no `error_code` field (an
`error_code` field yields the exchange error instead). -/
theorem http_status_failure (hasForm hasJson : Bool) (desc : String)
    (parse : String → Except String JsValue) (r : TransportResp)
    (herr : r.err = none)
    (hst : r.statusCode < 200 ∨ 300 ≤ r.statusCode) :
    (handleResponse hasForm hasJson desc parse r).1.isSome = true ∧
    ((handleResponse hasForm hasJson desc parse r).2.get "error_code" = none →
      (handleResponse hasForm hasJson desc parse r).1 =
        some (ErrV.http r.statusCode desc)) := by
  obtain ⟨err, st, d⟩ := r
  dsimp only at herr hst ⊢
  subst herr
  have hq : normalizeStep1 hasForm hasJson desc parse ⟨none, st, d⟩ =
      (some (ErrV.http st desc), d) := by
    simp only [normalizeStep1]
    rw [if_pos hst]
  constructor
  · unfold handleResponse applyErrorCode
    rw [hq]
    cases hg : JsValue.get d "error_code" <;> simp [hg]
  · intro hnone
    unfold handleResponse applyErrorCode at hnone ⊢
    rw [hq] at hnone ⊢
    cases hg : JsValue.get d "error_code" with
    | none => simp [hg]
    | some cv => simp [hg] at hnone

/-- C7 witness: HTTP 500 with a plain string body is the HTTP failure. -/
theorem http_status_failure_witness :
    ((⟨none, 500, JsValue.str "oops"⟩ : TransportResp).err = none) ∧
    (handleResponse false true "GET request" alwaysFailParse
      ⟨none, 500, JsValue.str "oops"⟩).1 = some (ErrV.http 500 "GET request") :=
  ⟨rfl, (http_status_failure false true "GET request" alwaysFailParse
    ⟨none, 500, JsValue.str "oops"⟩ rfl (Or.inr (by norm_num))).2 rfl⟩

theorem str_append_assoc (a b c : String) : (a ++ b) ++ c = a ++ (b ++ c) := by
  apply String.ext
  rw [String.data_append, String.data_append, String.data_append, String.data_append,
    List.append_assoc]

/-- With valid credentials, an object params argument and a function
callback, `privateRequest` issues exactly one POST whose form mapping is the
params with `api_key` and then `sign` assigned, `sign` computed over the
mapping before its own assignment. -/
theorem privateRequest_network (c : OKEXClient) (method : String)
    (ps : List (String × JVal)) (hk : c.api_key ≠ "") (hs : c.secret ≠ "") :
    privateRequest c method (.obj ps) true =
      .network
        { url := c.server ++ "/api/v1/" ++ method ++ ".do"
          method := "POST"
          form := some (objSet (objSet ps "api_key" (JVal.s c.api_key)) "sign"
            (JVal.s (signMessage (objSet ps "api_key" (JVal.s c.api_key)) c.secret)))
          qs := none
          timeout := none
          json := false } := by
  have hc : ¬ (c.api_key = "" ∨ c.secret = "") := by
    rintro (h | h)
    · exact hk h
    · exact hs h
  unfold privateRequest
  rw [if_neg hc, if_neg (show ¬ ¬ (ParamsArg.obj ps).isObject = true by simp [ParamsArg.isObject]),
    if_neg (show ¬ ¬ true = true by simp)]
  rfl

/-- C8: `addTrade(cb, 'btc_cny', 'buy', '1', '100')` with valid credentials
issues a POST to the `trade` endpoint whose form fields contain
`symbol=btc_cny`, `type=buy`, `amount=1`, `price=100` and `api_key`, plus a
`sign` field equal to the signature recomputed over exactly those fields
(excluding `sign` itself) with the secret. -/
theorem addTrade_form_fields (key secret server : String) (timeout : Nat)
    (hk : key ≠ "") (hs : secret ≠ "") :
    ∃ ps : List (String × JVal),
      addTrade ⟨key, secret, server, timeout⟩ true
        (some "btc_cny") (some "buy") (some "1") (some "100") =
        .network
          { url := server ++ "/api/v1/trade.do"
            method := "POST"
            form := some (ps ++ [("sign", JVal.s (signMessage ps secret))])
            qs := none
            timeout := none
            json := false } ∧
      ps.lookup "symbol" = some (.s "btc_cny") ∧
      ps.lookup "type" = some (.s "buy") ∧
      ps.lookup "amount" = some (.s "1") ∧
      ps.lookup "price" = some (.s "100") ∧
      ps.lookup "api_key" = some (.s key) ∧
      ps.lookup "sign" = none := by
  refine ⟨[("symbol", .s "btc_cny"), ("type", .s "buy"), ("amount", .s "1"),
    ("price", .s "100"), ("api_key", .s key)], ?_, rfl, rfl, rfl, rfl, rfl, rfl⟩
  rw [show addTrade ⟨key, secret, server, timeout⟩ true (some "btc_cny") (some "buy")
      (some "1") (some "100") =
      privateRequest ⟨key, secret, server, timeout⟩ "trade"
        (.obj [("symbol", .s "btc_cny"), ("type", .s "buy"), ("amount", .s "1"),
          ("price", .s "100")]) true from rfl]
  rw [privateRequest_network _ _ _ hk hs, str_append_assoc, str_append_assoc]
  rfl

/-- C8 witness: the theorem applied to a concrete client. -/
theorem addTrade_form_fields_witness :
    ("testKey" : String) ≠ "" ∧
    ∃ ps : List (String × JVal),
      addTrade ⟨"testKey", "testSecret", "https://www.okex.com", 20000⟩ true
        (some "btc_cny") (some "buy") (some "1") (some "100") =
        .network
          { url := "https://www.okex.com" ++ "/api/v1/trade.do"
            method := "POST"
            form := some (ps ++ [("sign", JVal.s (signMessage ps "testSecret"))])
            qs := none
            timeout := none
            json := false } ∧
      ps.lookup "symbol" = some (.s "btc_cny") ∧
      ps.lookup "type" = some (.s "buy") ∧
      ps.lookup "amount" = some (.s "1") ∧
      ps.lookup "price" = some (.s "100") ∧
      ps.lookup "api_key" = some (.s "testKey") ∧
      ps.lookup "sign" = none :=
  ⟨by decide, addTrade_form_fields "testKey" "testSecret" "https://www.okex.com" 20000
    (by decide) (by decide)⟩

/-- C9 counterexample: `getTradeHistory` called without `since` still puts
the `since` key, with `undefined` value, into the wire form mapping (and
hence into the signed canonical string). -/
theorem optional_args_counterexample :
    (reqFormFields (getTradeHistory testClient true (some "btc_usd") none)).lookup "since" =
      some JVal.undefined := rfl

/-- C9 (amended): façade methods that guard their optional arguments — here
`getKline` — omit the keys from the wire mapping when the arguments are not
supplied, but `getTradeHistory` and `getOrdersInfo` always include their
keys, carrying the `undefined` value for unsupplied arguments. -/
theorem optional_args_amended (c : OKEXClient) (symbol : Option String) :
    (∀ o, getKline c true symbol none none none = .network o →
      (o.qs.getD []).lookup "type" = none ∧
      (o.qs.getD []).lookup "size" = none ∧
      (o.qs.getD []).lookup "since" = none) ∧
    (c.api_key ≠ "" → c.secret ≠ "" →
      (reqFormFields (getTradeHistory c true symbol none)).lookup "since" =
        some JVal.undefined ∧
      (reqFormFields (getOrdersInfo c true symbol none none)).lookup "type" =
        some JVal.undefined ∧
      (reqFormFields (getOrdersInfo c true symbol none none)).lookup "order_id" =
        some JVal.undefined) := by
  constructor
  · intro o ho
    rw [show getKline c true symbol none none none =
        ReqOutcome.network
          { url := c.server ++ "/api/v1/" ++ "kline" ++ ".do", method := "GET",
            form := none, qs := some [("symbol", JVal.ofOpt symbol)],
            timeout := some c.timeout, json := true } from rfl] at ho
    injection ho with h
    subst h
    exact ⟨rfl, rfl, rfl⟩
  · intro hk hs
    refine ⟨?_, ?_, ?_⟩
    · rw [show getTradeHistory c true symbol none =
          privateRequest c "trade_history"
            (.obj [("symbol", JVal.ofOpt symbol), ("since", JVal.undefined)]) true from rfl,
        privateRequest_network _ _ _ hk hs]
      rfl
    · rw [show getOrdersInfo c true symbol none none =
          privateRequest c "orders_info"
            (.obj [("symbol", JVal.ofOpt symbol), ("type", JVal.undefined),
              ("order_id", JVal.undefined)]) true from rfl,
        privateRequest_network _ _ _ hk hs]
      rfl
    · rw [show getOrdersInfo c true symbol none none =
          privateRequest c "orders_info"
            (.obj [("symbol", JVal.ofOpt symbol), ("type", JVal.undefined),
              ("order_id", JVal.undefined)]) true from rfl,
        privateRequest_network _ _ _ hk hs]
      rfl

/-- C9 witness: the amended statement at a concrete client and symbol. -/
theorem optional_args_amended_witness :
    testClient.api_key ≠ "" ∧
    (reqFormFields (getTradeHistory testClient true (some "ltc_usd") none)).lookup "since" =
      some JVal.undefined :=
  ⟨by decide, ((optional_args_amended testClient (some "ltc_usd")).2 (by decide) (by decide)).1⟩

/-- C10: `getLendDepth` issues exactly the request of `getKline` called with
only the symbol argument — a public request to the `kline` endpoint with
parameter mapping `{symbol}` — and any network request it issues goes to the
`kline` URL, never to a lend-depth endpoint. -/
theorem getLendDepth_is_getKline (c : OKEXClient) (cbIsFn : Bool)
    (symbol : Option String) :
    getLendDepth c cbIsFn symbol = getKline c cbIsFn symbol none none none ∧
    ∀ o, getLendDepth c cbIsFn symbol = .network o →
      o.url = c.server ++ "/api/v1/kline.do" ∧ o.method = "GET" ∧
      o.qs = some [("symbol", JVal.ofOpt symbol)] := by
  constructor
  · rfl
  · intro o ho
    cases cbIsFn with
    | false =>
      rw [show getLendDepth c false symbol = ReqOutcome.thrown from rfl] at ho
      exact ReqOutcome.noConfusion ho
    | true =>
      rw [show getLendDepth c true symbol =
          ReqOutcome.network
            { url := c.server ++ "/api/v1/" ++ "kline" ++ ".do", method := "GET",
              form := none, qs := some [("symbol", JVal.ofOpt symbol)],
              timeout := some c.timeout, json := true } from rfl] at ho
      injection ho with h
      subst h
      refine ⟨?_, rfl, rfl⟩
      show c.server ++ "/api/v1/" ++ "kline" ++ ".do" = c.server ++ "/api/v1/kline.do"
      rw [str_append_assoc, str_append_assoc]
      rfl

/-- C10 witness: the equivalence and the `kline` URL at a concrete call. -/
theorem getLendDepth_is_getKline_witness :
    getLendDepth testClient true (some "btc_usd") =
      getKline testClient true (some "btc_usd") none none none ∧
    getLendDepth testClient true (some "btc_usd") = .network
      { url := "https://www.okex.com/api/v1/kline.do", method := "GET", form := none,
        qs := some [("symbol", JVal.s "btc_usd")], timeout := some 20000, json := true } ∧
    (ReqOptions.url
      { url := "https://www.okex.com/api/v1/kline.do", method := "GET", form := none,
        qs := some [("symbol", JVal.s "btc_usd")], timeout := some 20000, json := true }) =
      testClient.server ++ "/api/v1/kline.do" :=
  ⟨(getLendDepth_is_getKline testClient true (some "btc_usd")).1, rfl,
    ((getLendDepth_is_getKline testClient true (some "btc_usd")).2 _ rfl).1⟩
